import Mathlib

/-! Shallow embedding of `custom_components/cover_time_based/travelcalculator.py`
(class `TravelCalculator`), which estimates the position of a motorized cover
from elapsed time and commanded direction.

Modelling conventions:
* Python `float` times and durations are modelled as `ℚ` (exact arithmetic).
* Python `int` positions are modelled as `ℤ`.
* `time.time()` is modelled by passing the current clock reading `now : ℚ`
  explicitly to every operation that reads the clock.
* Python `int(x)` (truncation toward zero) is modelled by `truncQ`.
* A Python runtime exception (`ZeroDivisionError` in `_calculate_position`,
  `TypeError` on an `int`/`None` order comparison) is modelled as
  `Except.error ()`.
-/

namespace CoverTimeBased

/-- `TravelStatus` from travelcalculator.py. `DIRECTION_UP` is the spec's
Opening, `DIRECTION_DOWN` is the spec's Closing. -/
inductive TravelStatus where
  | DIRECTION_UP
  | DIRECTION_DOWN
  | STOPPED
deriving DecidableEq

/-- The mutable state of the Python class `TravelCalculator` (its `__slots__`). -/
structure TravelCalculator where
  travel_direction : TravelStatus
  travel_time_down : ℚ
  travel_time_up : ℚ
  slats_open_time : ℚ
  slats_close_time : ℚ
  last_known_position : Option ℤ
  last_known_position_timestamp : ℚ
  position_confirmed : Bool
  travel_to_position : Option ℤ
  position_closed : ℤ
  position_open : ℤ
deriving DecidableEq

/-- Python `int(x)` applied to a float: truncation toward zero. -/
def truncQ (q : ℚ) : ℤ := if 0 ≤ q then ⌊q⌋ else ⌈q⌉

/-- `TravelCalculator.__init__(travel_time_down, travel_time_up, slats_open_time,
slats_close_time)`. -/
def initCalc (travel_time_down travel_time_up slats_open_time slats_close_time : ℚ) :
    TravelCalculator :=
  { travel_direction := TravelStatus.STOPPED
    travel_time_down := travel_time_down
    travel_time_up := travel_time_up
    slats_open_time := slats_open_time
    slats_close_time := slats_close_time
    last_known_position := none
    last_known_position_timestamp := 0
    position_confirmed := false
    travel_to_position := none
    position_closed := 100
    position_open := 0 }

namespace TravelCalculator

/-- `TravelCalculator.set_position(position)`; the clock read is the `now`
argument. -/
def set_position (c : TravelCalculator) (position : ℤ) (now : ℚ) : TravelCalculator :=
  { c with
    last_known_position := some position
    last_known_position_timestamp := now
    position_confirmed := true }

/-- `TravelCalculator.update_position(position)`: records position and
timestamp, and marks confirmed only when `position == self._travel_to_position`
(a Python `int`/`Optional[int]` equality, false when the target is `None`). -/
def update_position (c : TravelCalculator) (position : ℤ) (now : ℚ) : TravelCalculator :=
  let c1 :=
    { c with
      last_known_position := some position
      last_known_position_timestamp := now }
  if c.travel_to_position = some position then { c1 with position_confirmed := true } else c1

/-- `TravelCalculator.calculate_travel_time(from_position, to_position)`. -/
def calculate_travel_time (c : TravelCalculator) (from_position to_position : ℤ) : ℚ :=
  let travel_range : ℤ := |to_position - from_position|
  let travel_time_full : ℚ :=
    if from_position > to_position then c.travel_time_down else c.travel_time_up
  let slats_time : ℚ :=
    if from_position = 0 ∨ to_position = 0 then
      (if from_position > to_position then c.slats_close_time else c.slats_open_time)
    else 0
  (travel_time_full - slats_time) * ((travel_range : ℚ) / 100) + slats_time

/-- `TravelCalculator._calculate_position()`. The two divisions of the source
(`elapsed_time / slats_time * 0.1` and
`(elapsed_time - slats_time) / (remaining_travel_time - slats_time)`) raise
`ZeroDivisionError` in Python when their denominator is zero; that outcome is
modelled as `Except.error ()`. -/
def calculate_position (c : TravelCalculator) (now : ℚ) : Except Unit (Option ℤ) :=
  match c.travel_to_position, c.last_known_position with
  | none, _ => Except.ok c.last_known_position
  | some _, none => Except.ok c.last_known_position
  | some travel_to, some last_known =>
    let relative_position : ℤ := travel_to - last_known
    if (relative_position ≤ 0 ∧ c.travel_direction = TravelStatus.DIRECTION_DOWN) ∨
        (0 ≤ relative_position ∧ c.travel_direction = TravelStatus.DIRECTION_UP) then
      Except.ok (some travel_to)
    else
      let remaining_travel_time : ℚ := c.calculate_travel_time last_known travel_to
      let elapsed_time : ℚ := now - c.last_known_position_timestamp
      if remaining_travel_time < elapsed_time then Except.ok (some travel_to)
      else
        let slats_time : ℚ :=
          if last_known = 0 ∨ travel_to = 0 then
            (if c.travel_direction = TravelStatus.DIRECTION_DOWN then c.slats_close_time
              else c.slats_open_time)
          else 0
        if elapsed_time < slats_time then
          if slats_time = 0 then Except.error ()
          else
            Except.ok (some (truncQ ((last_known : ℚ) +
              (relative_position : ℚ) * (elapsed_time / slats_time * (1 / 10)))))
        else
          if remaining_travel_time - slats_time = 0 then Except.error ()
          else
            Except.ok (some (truncQ ((last_known : ℚ) +
              (relative_position : ℚ) *
                ((elapsed_time - slats_time) / (remaining_travel_time - slats_time)))))

/-- `TravelCalculator.current_position()`. -/
def current_position (c : TravelCalculator) (now : ℚ) : Except Unit (Option ℤ) :=
  if c.position_confirmed then Except.ok c.last_known_position
  else c.calculate_position now

/-- `TravelCalculator.stop()`. Note: the source does not touch
`_last_known_position_timestamp` here. -/
def stop (c : TravelCalculator) (now : ℚ) : Except Unit TravelCalculator :=
  match c.current_position now with
  | Except.error e => Except.error e
  | Except.ok none => Except.ok c
  | Except.ok (some stop_position) =>
    Except.ok
      { c with
        last_known_position := some stop_position
        travel_to_position := some stop_position
        position_confirmed := false
        travel_direction := TravelStatus.STOPPED }

/-- `TravelCalculator.start_travel(_travel_to_position)`. The inner `none` arm
models the Python `TypeError` that `_travel_to_position > None` would raise;
it is unreachable when `stop` succeeds on a known position. -/
def start_travel (c : TravelCalculator) (travel_to : ℤ) (now : ℚ) :
    Except Unit TravelCalculator :=
  match c.last_known_position with
  | none => Except.ok (c.set_position travel_to now)
  | some _ =>
    match c.stop now with
    | Except.error e => Except.error e
    | Except.ok c1 =>
      match c1.last_known_position with
      | none => Except.error ()
      | some snapshot =>
        Except.ok
          { c1 with
            last_known_position_timestamp := now
            travel_to_position := some travel_to
            position_confirmed := false
            travel_direction :=
              if travel_to > snapshot then TravelStatus.DIRECTION_DOWN
              else TravelStatus.DIRECTION_UP }

/-- `TravelCalculator.start_travel_up()`. -/
def start_travel_up (c : TravelCalculator) (now : ℚ) : Except Unit TravelCalculator :=
  c.start_travel c.position_open now

/-- `TravelCalculator.start_travel_down()`. -/
def start_travel_down (c : TravelCalculator) (now : ℚ) : Except Unit TravelCalculator :=
  c.start_travel c.position_closed now

/-- `TravelCalculator.start_travel_tilt(_travel_to_position)` (textually the
same body as `start_travel` in the source). -/
def start_travel_tilt (c : TravelCalculator) (travel_to : ℤ) (now : ℚ) :
    Except Unit TravelCalculator :=
  match c.last_known_position with
  | none => Except.ok (c.set_position travel_to now)
  | some _ =>
    match c.stop now with
    | Except.error e => Except.error e
    | Except.ok c1 =>
      match c1.last_known_position with
      | none => Except.error ()
      | some snapshot =>
        Except.ok
          { c1 with
            last_known_position_timestamp := now
            travel_to_position := some travel_to
            position_confirmed := false
            travel_direction :=
              if travel_to > snapshot then TravelStatus.DIRECTION_DOWN
              else TravelStatus.DIRECTION_UP }

/-- `TravelCalculator.start_travel_tilt_up()`. -/
def start_travel_tilt_up (c : TravelCalculator) (now : ℚ) : Except Unit TravelCalculator :=
  c.start_travel_tilt c.position_open now

/-- `TravelCalculator.start_travel_tilt_down()`. -/
def start_travel_tilt_down (c : TravelCalculator) (now : ℚ) : Except Unit TravelCalculator :=
  c.start_travel_tilt c.position_closed now

/-- `TravelCalculator.is_traveling()`: `current_position() != _travel_to_position`. -/
def is_traveling (c : TravelCalculator) (now : ℚ) : Except Unit Bool :=
  (c.current_position now).map (fun p => decide (p ≠ c.travel_to_position))

/-- `TravelCalculator.is_opening()`. -/
def is_opening (c : TravelCalculator) (now : ℚ) : Except Unit Bool :=
  (c.is_traveling now).map
    (fun b => b && decide (c.travel_direction = TravelStatus.DIRECTION_UP))

/-- `TravelCalculator.is_closing()`. -/
def is_closing (c : TravelCalculator) (now : ℚ) : Except Unit Bool :=
  (c.is_traveling now).map
    (fun b => b && decide (c.travel_direction = TravelStatus.DIRECTION_DOWN))

/-- `TravelCalculator.position_reached()`: `current_position() == _travel_to_position`. -/
def position_reached (c : TravelCalculator) (now : ℚ) : Except Unit Bool :=
  (c.current_position now).map (fun p => decide (p = c.travel_to_position))

/-- `TravelCalculator.is_open()`. -/
def is_open (c : TravelCalculator) (now : ℚ) : Except Unit Bool :=
  (c.current_position now).map (fun p => decide (p = some c.position_open))

/-- `TravelCalculator.is_closed()`. -/
def is_closed (c : TravelCalculator) (now : ℚ) : Except Unit Bool :=
  (c.current_position now).map (fun p => decide (p = some c.position_closed))

end TravelCalculator

/-- States reachable from a freshly constructed `TravelCalculator` by the
mutating operations of the class (queries do not change state). -/
inductive Reachable : TravelCalculator → Prop where
  | init : ∀ d u so sc, Reachable (initCalc d u so sc)
  | set : ∀ c p now, Reachable c → Reachable (c.set_position p now)
  | update : ∀ c p now, Reachable c → Reachable (c.update_position p now)
  | stopped : ∀ c now c', Reachable c → c.stop now = Except.ok c' → Reachable c'
  | started : ∀ c t now c', Reachable c → c.start_travel t now = Except.ok c' → Reachable c'
  | startedTilt : ∀ c t now c', Reachable c → c.start_travel_tilt t now = Except.ok c' →
      Reachable c'

/-- Truncation of an integer is itself. -/
theorem truncQ_intCast (n : ℤ) : truncQ ((n : ℤ) : ℚ) = n := by
  unfold truncQ
  split <;> simp

/-- A lower bound on a nonnegative truncation. -/
theorem le_truncQ (n : ℤ) (q : ℚ) (h0 : 0 ≤ q) (h : (n : ℚ) ≤ q) : n ≤ truncQ q := by
  unfold truncQ
  rw [if_pos h0]
  exact Int.le_floor.mpr h

/-- Modelled from the spec: the travel-time formula of §4 of spec.md, written
from the spec text. `travel_range = |to − from|`; `travel_time_full` is the
closing duration when `from > to`, else the opening duration; `slats_time` is
the applicable slats duration when `from == 0 or to == 0`, else 0; the result
is `(travel_time_full − slats_time) * (travel_range / 100) + slats_time`. -/
def spec_travel_time (closing_duration opening_duration slats_open slats_close : ℚ)
    (from_position to_position : ℤ) : ℚ :=
  let travel_range : ℚ := ((|to_position - from_position| : ℤ) : ℚ)
  let travel_time_full : ℚ :=
    if from_position > to_position then closing_duration else opening_duration
  let slats_time : ℚ :=
    if from_position = 0 ∨ to_position = 0 then
      (if from_position > to_position then slats_close else slats_open)
    else 0
  (travel_time_full - slats_time) * (travel_range / 100) + slats_time

end CoverTimeBased

open CoverTimeBased CoverTimeBased.TravelCalculator

/-- C1: with `travel_time_down = 100`, `travel_time_up = 100`, zero slats times,
starting from confirmed position 90 and calling `start_travel 60` at time 0:
the direction becomes `DIRECTION_UP` (Opening), `current_position` is 80 at
elapsed 10, 70 at elapsed 20, exactly 60 at elapsed 30, and `position_reached`
is true at elapsed 30. -/
theorem C1_worked_example :
    (((initCalc 100 100 0 0).set_position 90 0).start_travel 60 0).map
        (fun s => s.travel_direction) = Except.ok TravelStatus.DIRECTION_UP ∧
    (((initCalc 100 100 0 0).set_position 90 0).start_travel 60 0).bind
        (fun s => s.current_position 10) = Except.ok (some 80) ∧
    (((initCalc 100 100 0 0).set_position 90 0).start_travel 60 0).bind
        (fun s => s.current_position 20) = Except.ok (some 70) ∧
    (((initCalc 100 100 0 0).set_position 90 0).start_travel 60 0).bind
        (fun s => s.current_position 30) = Except.ok (some 60) ∧
    (((initCalc 100 100 0 0).set_position 90 0).start_travel 60 0).bind
        (fun s => s.position_reached 30) = Except.ok true := by
  refine ⟨?_, ?_, ?_, ?_, ?_⟩ <;>
    norm_num [initCalc, TravelCalculator.set_position, TravelCalculator.start_travel,
      TravelCalculator.stop, TravelCalculator.current_position,
      TravelCalculator.calculate_position, TravelCalculator.calculate_travel_time,
      TravelCalculator.position_reached, truncQ, Except.bind, Except.map] <;>
    decide

/-- C2 (evaluation at the failing input): with `slats_close_time = 20`,
`travel_time_down = travel_time_up = 100`, `slats_open_time = 0`, traveling
from confirmed position 0 toward 100 (direction `DIRECTION_DOWN`):
`current_position` is 5 at elapsed 10, but at elapsed 20 — the end of the
slats phase — the post-slats formula restarts the progress fraction at 0, so
`current_position` is 0, not the 10 the claim states. -/
theorem C2_eval :
    (((initCalc 100 100 0 20).set_position 0 0).start_travel 100 0).bind
        (fun s => s.current_position 10) = Except.ok (some 5) ∧
    (((initCalc 100 100 0 20).set_position 0 0).start_travel 100 0).bind
        (fun s => s.current_position 20) = Except.ok (some 0) := by
  refine ⟨?_, ?_⟩ <;>
    norm_num [initCalc, TravelCalculator.set_position, TravelCalculator.start_travel,
      TravelCalculator.stop, TravelCalculator.current_position,
      TravelCalculator.calculate_position, TravelCalculator.calculate_travel_time,
      truncQ, Except.bind] <;>
    decide

/-- C3 (evaluation at the failing input): with `slats_close_time = 20`,
`travel_time_down = travel_time_up = 100`, `slats_open_time = 0`, after
`start_travel 50` from confirmed position 0 the position at elapsed 10 is 2
but at elapsed 20 it is 0: the sequence of positions is not monotone toward
the target 50 (it falls back when the slats phase ends). -/
theorem C3_eval :
    (((initCalc 100 100 0 20).set_position 0 0).start_travel 50 0).bind
        (fun s => s.current_position 10) = Except.ok (some 2) ∧
    (((initCalc 100 100 0 20).set_position 0 0).start_travel 50 0).bind
        (fun s => s.current_position 20) = Except.ok (some 0) ∧
    ¬ ((2 : ℤ) ≤ 0) := by
  refine ⟨?_, ?_, by decide⟩ <;>
    norm_num [initCalc, TravelCalculator.set_position, TravelCalculator.start_travel,
      TravelCalculator.stop, TravelCalculator.current_position,
      TravelCalculator.calculate_position, TravelCalculator.calculate_travel_time,
      truncQ, Except.bind] <;>
    decide

/-- C4: `calculate_travel_time from to` equals the spec formula
`(travel_time_full − slats_time) * (|to − from| / 100) + slats_time`, where
`travel_time_full` is the closing duration (`travel_time_down`) when
`from > to` and the opening duration (`travel_time_up`) otherwise, and
`slats_time` is the applicable slats duration when `from = 0` or `to = 0`
and 0 otherwise. -/
theorem C4_travel_time_formula (c : TravelCalculator) (from_position to_position : ℤ) :
    c.calculate_travel_time from_position to_position =
      spec_travel_time c.travel_time_down c.travel_time_up
        c.slats_open_time c.slats_close_time from_position to_position := by
  unfold TravelCalculator.calculate_travel_time spec_travel_time
  rfl

@[simp]
theorem status_up_ne_down : TravelStatus.DIRECTION_UP ≠ TravelStatus.DIRECTION_DOWN := by
  decide

@[simp]
theorem status_down_ne_up : TravelStatus.DIRECTION_DOWN ≠ TravelStatus.DIRECTION_UP := by
  decide

@[simp]
theorem status_stopped_ne_down : TravelStatus.STOPPED ≠ TravelStatus.DIRECTION_DOWN := by
  decide

@[simp]
theorem status_stopped_ne_up : TravelStatus.STOPPED ≠ TravelStatus.DIRECTION_UP := by
  decide

/-- In a state whose origin and target coincide at `p`, with direction
`STOPPED` and the position unconfirmed (the state `stop` leaves behind),
`current_position` can only return `some p` when it returns at all. -/
theorem current_position_of_stopped_state (c : TravelCalculator) (p : ℤ) (now' : ℚ)
    (hlast : c.last_known_position = some p)
    (htarget : c.travel_to_position = some p)
    (hconf : c.position_confirmed = false)
    (hdir : c.travel_direction = TravelStatus.STOPPED) :
    ∀ v, c.current_position now' = Except.ok v → v = some p := by
  intro v hv
  unfold TravelCalculator.current_position at hv
  rw [hconf] at hv
  unfold TravelCalculator.calculate_position TravelCalculator.calculate_travel_time at hv
  simp only [htarget, hlast, hdir, sub_self, abs_zero, Int.cast_zero, zero_mul, add_zero,
    status_stopped_ne_down, status_stopped_ne_up, and_false, or_self, if_false,
    Bool.false_eq_true, truncQ_intCast, zero_div, mul_zero, zero_add, le_refl, true_and,
    lt_irrefl] at hv
  split_ifs at hv with h1 h2 h3 <;> simp_all

/-- In a state whose origin and target coincide at `p`, with direction
`STOPPED` and the position unconfirmed, `is_traveling` can only return
`false` when it returns at all. -/
theorem is_traveling_of_stopped_state (c : TravelCalculator) (p : ℤ) (now' : ℚ)
    (hlast : c.last_known_position = some p)
    (htarget : c.travel_to_position = some p)
    (hconf : c.position_confirmed = false)
    (hdir : c.travel_direction = TravelStatus.STOPPED) :
    ∀ b : Bool, c.is_traveling now' = Except.ok b → b = false := by
  intro b hb
  unfold TravelCalculator.is_traveling at hb
  cases hx : c.current_position now' with
  | error e => rw [hx] at hb; simp [Except.map] at hb
  | ok v =>
    have hv := current_position_of_stopped_state c p now' hlast htarget hconf hdir v hx
    rw [hx, hv] at hb
    simp [Except.map, htarget] at hb
    exact hb

/-- C6 (amended): `stop` is a no-op when no position can be determined;
otherwise it freezes `last_known_position` and `target_position` to the
estimate at the moment of the call, marks the position unconfirmed and sets
the direction to `STOPPED` — but it leaves `last_known_position_timestamp`
unchanged rather than stamping the current time — and afterwards
`is_traveling` returns `false` at every query time at which it returns a
value at all. -/
theorem C6_stop_amended (c : TravelCalculator) (now : ℚ) :
    (c.current_position now = Except.ok none → c.stop now = Except.ok c) ∧
    ∀ p : ℤ, c.current_position now = Except.ok (some p) →
      c.stop now = Except.ok
        { c with
          last_known_position := some p
          travel_to_position := some p
          position_confirmed := false
          travel_direction := TravelStatus.STOPPED } ∧
      ∀ (now' : ℚ) (b : Bool),
        TravelCalculator.is_traveling
          { c with
            last_known_position := some p
            travel_to_position := some p
            position_confirmed := false
            travel_direction := TravelStatus.STOPPED } now' =
          Except.ok b → b = false := by
  constructor
  · intro h
    unfold TravelCalculator.stop
    rw [h]
  · intro p h
    constructor
    · unfold TravelCalculator.stop
      rw [h]
    · intro now' b hb
      exact is_traveling_of_stopped_state _ p now' rfl rfl rfl rfl b hb

/-- C6 witness: stopping a freshly confirmed state at position 50 freezes
both position fields at 50, unconfirms, and sets direction `STOPPED`. -/
theorem C6_stop_witness :
    ((initCalc 100 100 0 0).set_position 50 0).stop 3 =
      Except.ok
        { (initCalc 100 100 0 0).set_position 50 0 with
          last_known_position := some 50
          travel_to_position := some 50
          position_confirmed := false
          travel_direction := TravelStatus.STOPPED } :=
  ((C6_stop_amended ((initCalc 100 100 0 0).set_position 50 0) 3).2 50 rfl).1

/-- C6 counterexample: the claim says `stop` stamps the current time into
`last_known_position_timestamp`; in the code it does not. Stopping at time 10
a travel whose timestamp is 0 leaves the timestamp at 0, not 10. -/
theorem C6_counterexample :
    (((initCalc 100 100 0 0).set_position 50 0).start_travel 100 0).bind
        (fun s => (s.stop 10).map (fun s3 => s3.last_known_position_timestamp)) =
      Except.ok 0 ∧ (0 : ℚ) ≠ 10 := by
  constructor
  · norm_num [initCalc, TravelCalculator.set_position, TravelCalculator.start_travel,
      TravelCalculator.stop, TravelCalculator.current_position,
      TravelCalculator.calculate_position, TravelCalculator.calculate_travel_time,
      truncQ, Except.bind, Except.map]
  · norm_num

/-- C7 (amended): `update_position p` records `p` and the current time;
`position_confirmed` becomes `true` when `p` equals the target, and otherwise
keeps its previous value — it is never reset to `false`. -/
theorem C7_update_amended (c : TravelCalculator) (p : ℤ) (now : ℚ) :
    (c.update_position p now).last_known_position = some p ∧
    (c.update_position p now).last_known_position_timestamp = now ∧
    (c.update_position p now).position_confirmed =
      (if c.travel_to_position = some p then true else c.position_confirmed) ∧
    (c.update_position p now).travel_to_position = c.travel_to_position ∧
    (c.update_position p now).travel_direction = c.travel_direction := by
  unfold TravelCalculator.update_position
  split <;> simp_all

/-- C7 counterexample: from a state whose position was already confirmed (by
`set_position 50`) and whose target is absent, `update_position 30` leaves
`position_confirmed` `true` even though 30 differs from the target; the claim
says it should become `false`. -/
theorem C7_counterexample :
    (((initCalc 100 100 0 0).set_position 50 0).update_position 30 1).position_confirmed =
      true ∧
    ((initCalc 100 100 0 0).set_position 50 0).travel_to_position ≠ some 30 := by
  constructor
  · simp [initCalc, TravelCalculator.set_position, TravelCalculator.update_position]
  · simp [initCalc, TravelCalculator.set_position]

/-- C5 (amended): the position interpolation is not guarded against a zero
denominator: whenever the post-slats formula is reached with
`remaining_travel_time = slats_time` — here, querying at exactly zero elapsed
time a state stopped at a position `p ≠ 0` — the computation divides by zero
(a Python `ZeroDivisionError`, modelled as `Except.error ()`) instead of
returning the target. -/
theorem C5_divzero_amended (c : TravelCalculator) (p : ℤ)
    (hlast : c.last_known_position = some p)
    (htarget : c.travel_to_position = some p)
    (hdir : c.travel_direction = TravelStatus.STOPPED)
    (hconf : c.position_confirmed = false)
    (hp : p ≠ 0) :
    c.current_position c.last_known_position_timestamp = Except.error () := by
  unfold TravelCalculator.current_position
  rw [hconf]
  unfold TravelCalculator.calculate_position TravelCalculator.calculate_travel_time
  simp [htarget, hlast, hdir, hp, sub_self]

/-- C5 witness: a state stopped at position 50 with both position fields 50,
queried at its own timestamp, divides by zero. -/
theorem C5_divzero_witness :
    TravelCalculator.current_position
        ⟨TravelStatus.STOPPED, 100, 100, 0, 0, some 50, 0, false, some 50, 100, 0⟩ 0 =
      Except.error () ∧ (50 : ℤ) ≠ 0 :=
  ⟨C5_divzero_amended _ 50 rfl rfl rfl rfl (by decide), by decide⟩

/-- C5 counterexample: a reachable state (confirm 50, start toward 100, stop,
all at time 0) on which `current_position` divides by zero instead of
returning the target. -/
theorem C5_counterexample :
    (((initCalc 100 100 0 0).set_position 50 0).start_travel 100 0).bind
        (fun s => (s.stop 0).bind (fun s3 => s3.current_position 0)) =
      Except.error () := by
  norm_num [initCalc, TravelCalculator.set_position, TravelCalculator.start_travel,
    TravelCalculator.stop, TravelCalculator.current_position,
    TravelCalculator.calculate_position, TravelCalculator.calculate_travel_time,
    truncQ, Except.bind]

/-- C8: after `start_travel target` from a state with a known position, the
direction is `DIRECTION_DOWN` (Closing) exactly when `target` is strictly
greater than the just-snapshotted `last_known_position` (the position `stop`
recorded), and `DIRECTION_UP` (Opening) otherwise — in particular
`DIRECTION_UP`, not `STOPPED`, when the target equals the current position. -/
theorem C8_direction (c : TravelCalculator) (target : ℤ) (now : ℚ) (p0 : ℤ)
    (hknown : c.last_known_position = some p0)
    (c1 : TravelCalculator) (hstop : c.stop now = Except.ok c1)
    (p : ℤ) (hsnap : c1.last_known_position = some p) :
    (c.start_travel target now).map (fun s => s.travel_direction) =
      Except.ok
        (if target > p then TravelStatus.DIRECTION_DOWN else TravelStatus.DIRECTION_UP) ∧
    (c.start_travel target now).map (fun s => s.last_known_position) =
      Except.ok (some p) := by
  unfold TravelCalculator.start_travel
  simp only [hknown, hstop, hsnap, Except.map]
  exact ⟨trivial, trivial⟩

/-- C8 witness: starting a travel toward the current position 50 yields
direction `DIRECTION_UP`. -/
theorem C8_direction_witness :
    (((initCalc 100 100 0 0).set_position 50 0).start_travel 50 1).map
        (fun s => s.travel_direction) =
      Except.ok
        (if (50 : ℤ) > 50 then TravelStatus.DIRECTION_DOWN else TravelStatus.DIRECTION_UP) ∧
    (((initCalc 100 100 0 0).set_position 50 0).start_travel 50 1).map
        (fun s => s.last_known_position) = Except.ok (some 50) :=
  C8_direction ((initCalc 100 100 0 0).set_position 50 0) 50 1 50 rfl
    { (initCalc 100 100 0 0).set_position 50 0 with
      last_known_position := some 50
      travel_to_position := some 50
      position_confirmed := false
      travel_direction := TravelStatus.STOPPED } rfl 50 rfl

/-- C9 counterexample: the elapsed time is not clamped to 0. Confirm position
50 at time 100, start toward 0 at time 100 (slats_open_time 20), then query at
the earlier time 90: the negative elapsed −10 gives a negative progress
fraction and `current_position` returns 52 — outside the interval [0, 50]
between target and origin. -/
theorem C9_counterexample :
    (((initCalc 100 100 20 0).set_position 50 100).start_travel 0 100).bind
        (fun s => s.current_position 90) = Except.ok (some 52) ∧
    ¬ ((52 : ℤ) ≤ 50) := by
  refine ⟨?_, by decide⟩
  norm_num [initCalc, TravelCalculator.set_position, TravelCalculator.start_travel,
    TravelCalculator.stop, TravelCalculator.current_position,
    TravelCalculator.calculate_position, TravelCalculator.calculate_travel_time,
    truncQ, Except.bind]

/-- C9 (amended): `_calculate_position` uses `now − timestamp` without any
clamp: in a state traveling from 50 toward 0 with `slats_open_time = 20`, a
clock reading at least 4 seconds before the stored timestamp produces a
negative progress fraction, and the returned position `truncQ (50 − e/4)`
(with `e = now − ts < 0`) is strictly greater than the origin 50 — the
estimate moves away from the target instead of being held at the origin. -/
theorem C9_no_clamp_amended (ts now : ℚ) (h : now ≤ ts - 4) :
    TravelCalculator.current_position
        ⟨TravelStatus.DIRECTION_UP, 100, 100, 20, 0, some 50, ts, false, some 0, 100, 0⟩
        now =
      Except.ok (some (truncQ (50 - (now - ts) / 4))) ∧
    (50 : ℤ) < truncQ (50 - (now - ts) / 4) := by
  have he : now - ts ≤ -4 := by linarith
  constructor
  · unfold TravelCalculator.current_position TravelCalculator.calculate_position
      TravelCalculator.calculate_travel_time
    norm_num
    rw [if_neg (by linarith), if_pos (by linarith)]
    have harg : (50 : ℚ) + -(50 * ((now - ts) / 20 * (1 / 10))) = 50 - (now - ts) / 4 := by
      ring
    rw [harg]
  · have h51 : ((51 : ℤ) : ℚ) ≤ 50 - (now - ts) / 4 := by push_cast; linarith
    have h0 : (0 : ℚ) ≤ 50 - (now - ts) / 4 := by linarith
    have := le_truncQ 51 (50 - (now - ts) / 4) h0 h51
    omega

/-- C9 witness: at timestamp 0 and query time −8 the returned position is
`truncQ 52 = 52 > 50`. -/
theorem C9_no_clamp_witness :
    TravelCalculator.current_position
        ⟨TravelStatus.DIRECTION_UP, 100, 100, 20, 0, some 50, 0, false, some 0, 100, 0⟩
        (-8) =
      Except.ok (some (truncQ (50 - ((-8) - 0) / 4))) ∧
    (50 : ℤ) < truncQ (50 - ((-8) - 0) / 4) :=
  C9_no_clamp_amended 0 (-8) (by norm_num)

/-- `_calculate_position` returns `Except.ok none` only when no position is
known. -/
theorem calculate_position_ok_none (c : TravelCalculator) (now : ℚ)
    (h : c.calculate_position now = Except.ok none) : c.last_known_position = none := by
  unfold TravelCalculator.calculate_position at h
  cases h1 : c.travel_to_position with
  | none => simp only [h1] at h; simpa using h
  | some t =>
    cases h2 : c.last_known_position with
    | none => rfl
    | some q =>
      exfalso
      simp only [h1, h2] at h
      split_ifs at h <;> simp_all

/-- `current_position` returns `Except.ok none` only when no position is
known. -/
theorem current_position_ok_none (c : TravelCalculator) (now : ℚ)
    (h : c.current_position now = Except.ok none) : c.last_known_position = none := by
  unfold TravelCalculator.current_position at h
  by_cases hb : c.position_confirmed = true
  · rw [if_pos hb] at h; simpa using h
  · rw [if_neg hb] at h; exact calculate_position_ok_none c now h

/-- Invariant of every reachable state: while no position has ever been known,
the target is absent and the direction is `STOPPED`. -/
theorem reachable_unknown_inv (c : TravelCalculator) (h : Reachable c)
    (hnone : c.last_known_position = none) :
    c.travel_to_position = none ∧ c.travel_direction = TravelStatus.STOPPED := by
  induction h with
  | init d u so sc => exact ⟨rfl, rfl⟩
  | set c0 p now hr ih => simp [TravelCalculator.set_position] at hnone
  | update c0 p now hr ih =>
    exfalso
    unfold TravelCalculator.update_position at hnone
    split at hnone <;> simp at hnone
  | stopped c0 now c' hr heq ih =>
    unfold TravelCalculator.stop at heq
    cases hcp : c0.current_position now with
    | error e =>
      simp only [hcp] at heq
      exact Except.noConfusion heq
    | ok v =>
      cases v with
      | none =>
        simp only [hcp, Except.ok.injEq] at heq
        subst heq
        exact ih (current_position_ok_none c0 now hcp)
      | some sp =>
        simp only [hcp, Except.ok.injEq] at heq
        rw [← heq] at hnone
        simp at hnone
  | started c0 t now c' hr heq ih =>
    unfold TravelCalculator.start_travel at heq
    cases h1 : c0.last_known_position with
    | none =>
      simp only [h1, Except.ok.injEq] at heq
      rw [← heq] at hnone
      simp [TravelCalculator.set_position] at hnone
    | some q =>
      cases h2 : c0.stop now with
      | error e =>
        simp only [h1, h2] at heq
        exact Except.noConfusion heq
      | ok c1 =>
        cases h3 : c1.last_known_position with
        | none =>
          simp only [h1, h2, h3] at heq
          exact Except.noConfusion heq
        | some snap =>
          simp only [h1, h2, h3, Except.ok.injEq] at heq
          rw [← heq] at hnone
          simp [h3] at hnone
  | startedTilt c0 t now c' hr heq ih =>
    unfold TravelCalculator.start_travel_tilt at heq
    cases h1 : c0.last_known_position with
    | none =>
      simp only [h1, Except.ok.injEq] at heq
      rw [← heq] at hnone
      simp [TravelCalculator.set_position] at hnone
    | some q =>
      cases h2 : c0.stop now with
      | error e =>
        simp only [h1, h2] at heq
        exact Except.noConfusion heq
      | ok c1 =>
        cases h3 : c1.last_known_position with
        | none =>
          simp only [h1, h2, h3] at heq
          exact Except.noConfusion heq
        | some snap =>
          simp only [h1, h2, h3, Except.ok.injEq] at heq
          rw [← heq] at hnone
          simp [h3] at hnone

/-- C10: from a reachable state where no position has ever been known,
`start_travel t` behaves as `set_position t`: it records `t` as a confirmed
position, leaves the target absent and the direction `STOPPED`; immediately
afterwards `is_traveling` returns `true` and `position_reached` returns
`false` (the confirmed `some t` is compared against an absent target). -/
theorem C10_start_travel_unknown (c : TravelCalculator) (t : ℤ) (now : ℚ)
    (hr : Reachable c) (hnone : c.last_known_position = none) :
    c.start_travel t now = Except.ok (c.set_position t now) ∧
    (c.set_position t now).last_known_position = some t ∧
    (c.set_position t now).position_confirmed = true ∧
    (c.set_position t now).travel_to_position = none ∧
    (c.set_position t now).travel_direction = TravelStatus.STOPPED ∧
    ∀ now' : ℚ, (c.set_position t now).is_traveling now' = Except.ok true ∧
      (c.set_position t now).position_reached now' = Except.ok false := by
  obtain ⟨h1, h2⟩ := reachable_unknown_inv c hr hnone
  refine ⟨?_, rfl, rfl, ?_, ?_, ?_⟩
  · unfold TravelCalculator.start_travel
    simp only [hnone]
  · simpa [TravelCalculator.set_position] using h1
  · simpa [TravelCalculator.set_position] using h2
  · intro now'
    constructor
    · unfold TravelCalculator.is_traveling TravelCalculator.current_position
      simp [TravelCalculator.set_position, Except.map, h1]
    · unfold TravelCalculator.position_reached TravelCalculator.current_position
      simp [TravelCalculator.set_position, Except.map, h1]

/-- C10 witness: a freshly constructed estimator has no known position;
`start_travel 42` confirms position 42, and at query time 1 `is_traveling`
is `true` and `position_reached` is `false`. -/
theorem C10_start_travel_unknown_witness :
    (initCalc 100 100 0 0).start_travel 42 0 =
      Except.ok ((initCalc 100 100 0 0).set_position 42 0) ∧
    ((initCalc 100 100 0 0).set_position 42 0).travel_to_position = none ∧
    ((initCalc 100 100 0 0).set_position 42 0).is_traveling 1 = Except.ok true ∧
    ((initCalc 100 100 0 0).set_position 42 0).position_reached 1 = Except.ok false := by
  obtain h := C10_start_travel_unknown (initCalc 100 100 0 0) 42 0
    (Reachable.init 100 100 0 0) rfl
  exact ⟨h.1, h.2.2.2.1, (h.2.2.2.2.2 1).1, (h.2.2.2.2.2 1).2⟩
